import Mathlib

/-!
# Air-quality anomaly classifier: a shallow embedding

This file embeds the anomaly-classification engine of the `rpi-processor`
crate (`src/rpi-processor/src/anomalies.rs`) and proves the specified
properties of its data model and operations.

Modelling conventions:

* `chrono::DateTime<Utc>` is modelled as whole seconds since the Unix epoch
  (`Int`).  The source reads a timestamp only through `year()`, `ordinal()`,
  `hour()`, instant comparison, and subtraction of a fixed duration.  The
  pair `(year, ordinal)` identifies a UTC calendar day, so equality of that
  pair is equality of `t.fdiv 86400`, and `hour()` is
  `(t.emod 86400).fdiv 3600`; instant comparison and duration subtraction
  are integer comparison and subtraction.
* `f32` is modelled as `Option ℚ`: `none` is NaN, `some q` a finite value
  (rounding is not modelled; every claim here is about comparison and
  selection logic, not rounding error).  Rust's partial-order comparisons
  on `f32` return `false` whenever an operand is NaN; `f32::min`/`f32::max`
  return the other operand when one is NaN; subtraction propagates NaN.
* A Rust panic (the `unwrap()` of `partial_cmp` inside sorting / min
  selection, which fails exactly when a NaN is compared) is modelled as
  `Except.error ()`.  A comparison sort or a running-minimum fold over two
  or more elements compares every element at least once, so it panics
  exactly when the list has length ≥ 2 and contains a NaN; the code paths
  below only sort/minimise lists of length ≥ 3 resp. ≥ 10.
-/

namespace AirQuality

deriving instance DecidableEq for Except

/-- Seconds since the Unix epoch, standing for `chrono::DateTime<Utc>`. -/
abbrev UtcTime := Int

/-- The UTC calendar day of an instant.  The source compares days as the
pair `(year(), ordinal())`; two instants agree on that pair iff they agree
on `t.fdiv 86400`. -/
def dayKey (t : UtcTime) : Int := t.fdiv 86400

/-- `chrono`'s `hour()` for a UTC instant: in `0..23`. -/
def hourOf (t : UtcTime) : Nat := ((t.emod 86400).fdiv 3600).toNat

/-- `f32`: `none` is NaN, `some q` a finite value. -/
abbrev F32 := Option ℚ

/-- Rust `a <= b` on `f32`: false when either side is NaN. -/
def fle : F32 → F32 → Bool
  | some a, some b => decide (a ≤ b)
  | _, _ => false

/-- Rust `a >= b` on `f32`: false when either side is NaN. -/
def fge : F32 → F32 → Bool
  | some a, some b => decide (b ≤ a)
  | _, _ => false

/-- Rust `a - b` on `f32`: NaN-propagating subtraction. -/
def fsub : F32 → F32 → F32
  | some a, some b => some (a - b)
  | _, _ => none

/-- Rust `f32::min`: if one argument is NaN, returns the other. -/
def fmin : F32 → F32 → F32
  | some a, some b => some (min a b)
  | some a, none => some a
  | none, b => b

/-- Rust `f32::max`: if one argument is NaN, returns the other. -/
def fmax : F32 → F32 → F32
  | some a, some b => some (max a b)
  | some a, none => some a
  | none, b => b

/-- `f32::MAX = (2 - 2^-23) * 2^127`. -/
def f32MAX : ℚ := 2 ^ 128 - 2 ^ 104

/-- `f32::MIN = -f32::MAX`. -/
def f32MIN : ℚ := -(2 ^ 128 - 2 ^ 104)

/-- `MeasurementWithTime` (src/rpi-processor/src/types.rs). -/
structure MeasurementWithTime where
  co2 : Nat
  temperature : F32
  humidity : F32
  time : UtcTime
  device : String
  deriving Repr, DecidableEq

/-- `AnomalyConfig` (src/rpi-processor/src/anomalies.rs). -/
structure AnomalyConfig where
  humidity_definite_anomaly : F32
  humidity_suspicious : F32
  temp_above_daily_min : F32
  temp_absolute_min_for_spike : F32
  daylight_start_hour : Nat
  daylight_end_hour : Nat
  co2_spike_threshold : F32
  deriving Repr, DecidableEq

/-- `AnomalyConfig::default()`. -/
def AnomalyConfig.default : AnomalyConfig where
  humidity_definite_anomaly := some 55
  humidity_suspicious := some 65
  temp_above_daily_min := some 8
  temp_absolute_min_for_spike := some 12
  daylight_start_hour := 6
  daylight_end_hour := 18
  co2_spike_threshold := some 700

/-- `AnomalyFlags`. -/
structure AnomalyFlags where
  temperature_spike : Bool
  humidity_spike : Bool
  co2_spike : Bool
  possible_sunlight : Bool
  physical_constraint_temp_violation : Bool
  physical_constraint_humidity_violation : Bool
  physical_constraint_co2_violation : Bool
  deriving Repr, DecidableEq

/-- `AnomalyFlags::default()`: every flag false. -/
def AnomalyFlags.default : AnomalyFlags where
  temperature_spike := false
  humidity_spike := false
  co2_spike := false
  possible_sunlight := false
  physical_constraint_temp_violation := false
  physical_constraint_humidity_violation := false
  physical_constraint_co2_violation := false

/-- `AnomalyFlags::is_any_true`. -/
def AnomalyFlags.is_any_true (f : AnomalyFlags) : Bool :=
  f.temperature_spike || f.humidity_spike || f.co2_spike || f.possible_sunlight

/-- `DailyStats`.  The `(year, day_of_year)` key is carried as `dayKey`. -/
structure DailyStats where
  date : Option Int
  temp_min : F32
  temp_max : F32
  humidity_min : F32
  humidity_max : F32
  measurement_count : Nat
  deriving Repr, DecidableEq

/-- `DailyStats::new()`. -/
def DailyStats.new : DailyStats where
  date := none
  temp_min := some f32MAX
  temp_max := some f32MIN
  humidity_min := some f32MAX
  humidity_max := some f32MIN
  measurement_count := 0

/-- `DailyStats::update`. -/
def DailyStats.update (s : DailyStats) (measurement : MeasurementWithTime) : DailyStats :=
  let current_date := dayKey measurement.time
  if s.date ≠ some current_date then
    { date := some current_date
      temp_min := measurement.temperature
      temp_max := measurement.temperature
      humidity_min := measurement.humidity
      humidity_max := measurement.humidity
      measurement_count := 1 }
  else
    { s with
      temp_min := fmin s.temp_min measurement.temperature
      temp_max := fmax s.temp_max measurement.temperature
      humidity_min := fmin s.humidity_min measurement.humidity
      humidity_max := fmax s.humidity_max measurement.humidity
      measurement_count := s.measurement_count + 1 }

/-- `AnomalyDetector`. -/
structure AnomalyDetector where
  config : AnomalyConfig
  current_day_stats : DailyStats
  historical_daily_stats : List DailyStats
  recent_measurements : List MeasurementWithTime
  deriving Repr, DecidableEq

/-- `AnomalyDetector::new()`. -/
def AnomalyDetector.new : AnomalyDetector where
  config := AnomalyConfig.default
  current_day_stats := DailyStats.new
  historical_daily_stats := []
  recent_measurements := []

/-- `AnomalyDetector::with_config`. -/
def AnomalyDetector.with_config (config : AnomalyConfig) : AnomalyDetector where
  config := config
  current_day_stats := DailyStats.new
  historical_daily_stats := []
  recent_measurements := []

/-- The loop body of `AnomalyDetector::build_profile`: fold the measurements
into completed per-day stats, archiving the running day whenever the day key
changes. -/
def buildProfileGo (cur : DailyStats) : List MeasurementWithTime → List DailyStats
  | [] => if cur.measurement_count > 0 then [cur] else []
  | m :: ms =>
    if cur.date ≠ some (dayKey m.time) then
      (if cur.measurement_count > 0 then [cur] else [])
        ++ buildProfileGo (DailyStats.new.update m) ms
    else
      buildProfileGo (cur.update m) ms

/-- `AnomalyDetector::build_profile`: clears and repopulates
`historical_daily_stats`; no other field is touched. -/
def AnomalyDetector.build_profile (d : AnomalyDetector)
    (measurements : List MeasurementWithTime) : AnomalyDetector :=
  { d with historical_daily_stats := buildProfileGo DailyStats.new measurements }

/-- `AnomalyDetector::get_pre_sunlight_baseline`.

The `.unwrap()` on `partial_cmp` inside `sort_by` (and `min_by`) panics
exactly when a NaN takes part in a comparison; both call sites run on lists
of length ≥ 3 (resp. ≥ 10), where every element is compared at least once,
so a NaN anywhere in the list panics — modelled as `Except.error ()`. -/
def AnomalyDetector.get_pre_sunlight_baseline (d : AnomalyDetector)
    (current_time : UtcTime) : Except Unit (Option ℚ) :=
  -- `ordinal() == ... && year() == ...` is equality of the calendar day
  let baseline_temps : List F32 :=
    (d.recent_measurements.filter fun m =>
      decide (dayKey m.time = dayKey current_time) && decide (hourOf m.time < 7)).map
      (·.temperature)
  if 3 ≤ baseline_temps.length then
    if baseline_temps.any (·.isNone) then .error ()
    else
      let temps := (baseline_temps.filterMap id).insertionSort (· ≤ ·)
      .ok (some (temps.getD (temps.length / 2) 0))
  else if 10 ≤ d.recent_measurements.length then
    if (d.recent_measurements.map (·.temperature)).any (·.isNone) then .error ()
    else .ok (d.recent_measurements.filterMap (·.temperature)).min?
  else
    .ok none

/-- The state update at the head of `AnomalyDetector::analyze`: feed the
daily stats, push onto `recent_measurements`, evict entries at or before
`measurement.time - 3 hours`. -/
def AnomalyDetector.analyzeUpdate (d : AnomalyDetector)
    (measurement : MeasurementWithTime) : AnomalyDetector :=
  let cutoff := measurement.time - 3 * 3600
  { d with
    current_day_stats := d.current_day_stats.update measurement
    recent_measurements :=
      (d.recent_measurements ++ [measurement]).filter fun m => decide (cutoff < m.time) }

/-- The `is_daylight_hours` test of `analyze`: inclusive at both bounds. -/
def isDaylightHours (config : AnomalyConfig) (hour : Nat) : Bool :=
  decide (config.daylight_start_hour ≤ hour) && decide (hour ≤ config.daylight_end_hour)

/-- `analyze`, definite-humidity-anomaly block
(`humidity <= humidity_definite_anomaly`). -/
def stageDefiniteHumidity (d : AnomalyDetector) (measurement : MeasurementWithTime)
    (is_daylight_hours : Bool) (flags : AnomalyFlags) : AnomalyFlags :=
  if fle measurement.humidity d.config.humidity_definite_anomaly then
    { flags with
      humidity_spike := true
      possible_sunlight := if is_daylight_hours then true else flags.possible_sunlight }
  else flags

/-- `analyze`, suspicious-humidity block, branch with an available baseline:
confirm via the temperature rise over the baseline. -/
def stageSuspiciousSome (d : AnomalyDetector) (measurement : MeasurementWithTime)
    (is_daylight_hours : Bool) (baseline : ℚ) (flags : AnomalyFlags) : AnomalyFlags :=
  let temp := measurement.temperature
  if fge (fsub temp (some baseline)) d.config.temp_above_daily_min &&
      fge temp d.config.temp_absolute_min_for_spike then
    { flags with
      humidity_spike := true
      temperature_spike := true
      possible_sunlight := if is_daylight_hours then true else flags.possible_sunlight }
  else flags

/-- `analyze`, suspicious-humidity block, branch without a baseline:
during daylight an absolutely-high temperature still flags the humidity. -/
def stageSuspiciousNone (d : AnomalyDetector) (measurement : MeasurementWithTime)
    (is_daylight_hours : Bool) (flags : AnomalyFlags) : AnomalyFlags :=
  if is_daylight_hours then
    if fge measurement.temperature d.config.temp_absolute_min_for_spike then
      { flags with humidity_spike := true }
    else flags
  else flags

/-- `analyze`, independent temperature-spike block, with a baseline. -/
def stageTempSpikeSome (d : AnomalyDetector) (measurement : MeasurementWithTime)
    (is_daylight_hours : Bool) (baseline : ℚ) (flags : AnomalyFlags) : AnomalyFlags :=
  let temp := measurement.temperature
  if fge (fsub temp (some baseline)) d.config.temp_above_daily_min &&
      fge temp d.config.temp_absolute_min_for_spike && is_daylight_hours then
    { flags with temperature_spike := true }
  else flags

/-- `analyze`, CO₂ block. -/
def stageCO2 (d : AnomalyDetector) (measurement : MeasurementWithTime)
    (flags : AnomalyFlags) : AnomalyFlags :=
  if fge (some (measurement.co2 : ℚ)) d.config.co2_spike_threshold then
    { flags with co2_spike := true }
  else flags

/-- `analyze`, final sunlight-conjunction block. -/
def stageSunlight (is_daylight_hours : Bool) (flags : AnomalyFlags) : AnomalyFlags :=
  if flags.temperature_spike && flags.humidity_spike && is_daylight_hours then
    { flags with possible_sunlight := true }
  else flags

/-- The flag computation of `AnomalyDetector::analyze`, run on the
already-updated detector state, with the blocks of the source factored into
the named `stage*` functions above, in source order.  The `debug` branches
of the source only log. -/
def AnomalyDetector.analyzeFlags (d : AnomalyDetector)
    (measurement : MeasurementWithTime) : Except Unit AnomalyFlags := do
  let hour := hourOf measurement.time
  let is_daylight_hours := isDaylightHours d.config hour
  let humidity := measurement.humidity
  let flags := stageDefiniteHumidity d measurement is_daylight_hours AnomalyFlags.default
  let flags ←
    if fle humidity d.config.humidity_suspicious && !flags.humidity_spike then do
      let baseline_temp ← d.get_pre_sunlight_baseline measurement.time
      match baseline_temp with
      | some baseline => pure (stageSuspiciousSome d measurement is_daylight_hours baseline flags)
      | none => pure (stageSuspiciousNone d measurement is_daylight_hours flags)
    else pure flags
  let flags ←
    if !flags.temperature_spike then do
      match ← d.get_pre_sunlight_baseline measurement.time with
      | some baseline => pure (stageTempSpikeSome d measurement is_daylight_hours baseline flags)
      | none => pure flags
    else pure flags
  pure (stageSunlight is_daylight_hours (stageCO2 d measurement flags))

/-- `AnomalyDetector::analyze`: updates the state, then computes the flags.
The state mutation precedes every panic point of the source, so the returned
state is defined even when the flag computation panics.  The `debug`
argument only gates logging. -/
def AnomalyDetector.analyze (d : AnomalyDetector) (measurement : MeasurementWithTime)
    (debug : Bool) : AnomalyDetector × Except Unit AnomalyFlags :=
  let d := d.analyzeUpdate measurement
  let _ := debug
  (d, d.analyzeFlags measurement)

/-- The per-measurement flag stream of a detector run: replay the
measurements in order through `analyze` (with `debug = false`, as both
drivers do), collecting each result. -/
def runFlags (d : AnomalyDetector) : List MeasurementWithTime → List (Except Unit AnomalyFlags)
  | [] => []
  | m :: ms =>
    let r := d.analyze m false
    r.2 :: runFlags r.1 ms

/-- The detector state after replaying a list of measurements. -/
def runState (d : AnomalyDetector) : List MeasurementWithTime → AnomalyDetector
  | [] => d
  | m :: ms => runState (d.analyze m false).1 ms

/-- `BatchAnalysisResult`. -/
structure BatchAnalysisResult where
  total_measurements : Nat
  anomalies_detected : Nat
  sunlight_events : Nat
  anomaly_timestamps : List (UtcTime × AnomalyFlags × String)
  deriving Repr, DecidableEq

/-- The replay loop of `analyze_historical_data`; a panic inside `analyze`
aborts the whole batch. -/
def analyzeHistoricalGo (detector : AnomalyDetector) (res : BatchAnalysisResult) :
    List MeasurementWithTime → Except Unit BatchAnalysisResult
  | [] => .ok res
  | m :: ms =>
    let r := detector.analyze m false
    match r.2 with
    | .error e => .error e
    | .ok flags =>
      let res :=
        if flags.is_any_true then
          { res with
            anomalies_detected := res.anomalies_detected + 1
            sunlight_events := res.sunlight_events + (if flags.possible_sunlight then 1 else 0)
            anomaly_timestamps := res.anomaly_timestamps ++ [(m.time, flags, m.device)] }
        else res
      analyzeHistoricalGo r.1 res ms

/-- `analyze_historical_data` (src/rpi-processor/src/anomalies.rs): build the
daily profile over the whole batch, then replay every measurement through
`analyze`. -/
def analyze_historical_data (measurements : List MeasurementWithTime)
    (config : Option AnomalyConfig) : Except Unit BatchAnalysisResult :=
  let config := config.getD AnomalyConfig.default
  let detector := (AnomalyDetector.with_config config).build_profile measurements
  analyzeHistoricalGo detector
    { total_measurements := measurements.length
      anomalies_detected := 0
      sunlight_events := 0
      anomaly_timestamps := [] } measurements

/-- `get_pre_sunlight_baseline` with the early-morning cutoff hour as an
explicit parameter: the source is this computation at the hard-coded
cutoff `7`. -/
def baselineWithCutoff (recent : List MeasurementWithTime) (cutoff : Nat)
    (current_time : UtcTime) : Except Unit (Option ℚ) :=
  let baseline_temps : List F32 :=
    (recent.filter fun m =>
      decide (dayKey m.time = dayKey current_time) && decide (hourOf m.time < cutoff)).map
      (·.temperature)
  if 3 ≤ baseline_temps.length then
    if baseline_temps.any (·.isNone) then .error ()
    else
      let temps := (baseline_temps.filterMap id).insertionSort (· ≤ ·)
      .ok (some (temps.getD (temps.length / 2) 0))
  else if 10 ≤ recent.length then
    if (recent.map (·.temperature)).any (·.isNone) then .error ()
    else .ok (recent.filterMap (·.temperature)).min?
  else
    .ok none

/-- The baseline selection as the spec words it (for comparison with the
source): early-morning entries are those of the current day with hour
strictly below the *configured* daylight start hour. -/
def get_pre_sunlight_baseline_speced (d : AnomalyDetector)
    (current_time : UtcTime) : Except Unit (Option ℚ) :=
  baselineWithCutoff d.recent_measurements d.config.daylight_start_hour current_time

/-- Modelled from the spec: the measurement channels of the Rolling
Statistical Detector (§4.4); this component exists only in superseded
variants of the detector that are not part of the analysed source tree. -/
inductive Channel
  | temperature
  | humidity
  | co2
  deriving Repr, DecidableEq

/-- Modelled from the spec: the rolling-statistics fields of
`AnomalyConfig` (§3) — z-score multipliers per channel, minimum absolute
deltas per channel, rolling-window sample count. -/
structure RollingConfig where
  z_score_threshold : Channel → ℚ
  min_abs_delta : Channel → ℚ
  rolling_window_size : Nat

/-- Modelled from the spec: the outcome of a rolling-statistics check —
insufficient data is an explicit no-verdict outcome, never an error. -/
inductive RollingVerdict
  | noVerdict
  | anomalous
  | normal
  deriving Repr, DecidableEq

/-- Modelled from the spec: `check(current_value, channel, window_values)`
of the Rolling Statistical Detector (§4.4).  `window_values` excludes the
current measurement and is capped at `rolling_window_size` most-recent
entries; fewer than 5 available samples yield no verdict; otherwise the
point is anomalous iff both `|current_value − mean| > min_abs_delta` and
`|current_value − mean| > std_dev × z_score_threshold` over the population
mean/standard deviation of the capped window.  The standard-deviation
comparison is carried in squared form (`delta² > variance · z²`, with
`std_dev = √variance`), which is equivalent for `z ≥ 0` and keeps the
definition inside ℚ. -/
def rollingCheck (current_value : ℚ) (channel : Channel) (window_values : List ℚ)
    (cfg : RollingConfig) : RollingVerdict :=
  let window := window_values.take cfg.rolling_window_size
  if window.length < 5 then .noVerdict
  else
    let n : ℚ := window.length
    let mean := window.sum / n
    let variance := (window.map fun x => (x - mean) ^ 2).sum / n
    let delta := current_value - mean
    if |delta| > cfg.min_abs_delta channel ∧
        delta ^ 2 > variance * cfg.z_score_threshold channel ^ 2 then
      .anomalous
    else
      .normal

/-- A concrete detector state exercising the baseline's cutoff: daylight
start configured to hour 0, three same-day early-morning entries. -/
def c3Detector : AnomalyDetector where
  config :=
    { humidity_definite_anomaly := some 55, humidity_suspicious := some 65,
      temp_above_daily_min := some 8, temp_absolute_min_for_spike := some 12,
      daylight_start_hour := 0, daylight_end_hour := 18, co2_spike_threshold := some 700 }
  current_day_stats := DailyStats.new
  historical_daily_stats := []
  recent_measurements :=
    [{ co2 := 400, temperature := some 10, humidity := some 90, time := 3600,
       device := "esp32" },
     { co2 := 400, temperature := some 11, humidity := some 90, time := 7200,
       device := "esp32" },
     { co2 := 400, temperature := some 12, humidity := some 90, time := 10800,
       device := "esp32" }]

/-- The flag computation of `analyze` as a pure function of the (single,
deterministic) baseline answer.  `analyzeFlags` calls
`get_pre_sunlight_baseline` with identical arguments on every path that can
reach a flag decision — when the suspicious-humidity guard fails,
`temperature_spike` is still false and the temperature-spike block queries
it — so it equals this function whenever the baseline call succeeds, and
panics exactly when it panics (`analyzeFlags_eq`). -/
def flagsPure (d : AnomalyDetector) (measurement : MeasurementWithTime)
    (baseline_temp : Option ℚ) : AnomalyFlags :=
  let is_daylight_hours := isDaylightHours d.config (hourOf measurement.time)
  let flags := stageDefiniteHumidity d measurement is_daylight_hours AnomalyFlags.default
  let flags :=
    if fle measurement.humidity d.config.humidity_suspicious && !flags.humidity_spike then
      match baseline_temp with
      | some baseline => stageSuspiciousSome d measurement is_daylight_hours baseline flags
      | none => stageSuspiciousNone d measurement is_daylight_hours flags
    else flags
  let flags :=
    if !flags.temperature_spike then
      match baseline_temp with
      | some baseline => stageTempSpikeSome d measurement is_daylight_hours baseline flags
      | none => flags
    else flags
  stageSunlight is_daylight_hours (stageCO2 d measurement flags)

/-- The three legacy `physical_constraint_*` fields of a flag record. -/
def legacyFieldsFalse (f : AnomalyFlags) : Prop :=
  f.physical_constraint_temp_violation = false ∧
    f.physical_constraint_humidity_violation = false ∧
    f.physical_constraint_co2_violation = false

theorem analyzeFlags_eq (d : AnomalyDetector) (m : MeasurementWithTime) :
    d.analyzeFlags m =
      match d.get_pre_sunlight_baseline m.time with
      | .error e => .error e
      | .ok bt => .ok (flagsPure d m bt) := by
  have hs1 : (stageDefiniteHumidity d m (isDaylightHours d.config (hourOf m.time))
      AnomalyFlags.default).temperature_spike = false := by
    unfold stageDefiniteHumidity
    split <;> rfl
  unfold AnomalyDetector.analyzeFlags flagsPure
  rcases hb : d.get_pre_sunlight_baseline m.time with e | bt
  · simp only [hb, bind, Except.bind, pure, Except.pure]
    split_ifs <;> first | rfl | simp_all [hs1]
  · rcases bt with _ | q <;>
      simp only [hb, bind, Except.bind, pure, Except.pure] <;>
      split_ifs <;> rfl

theorem analyzeUpdate_hist (d : AnomalyDetector) (h : List DailyStats)
    (m : MeasurementWithTime) :
    ({ d with historical_daily_stats := h } : AnomalyDetector).analyzeUpdate m =
      { d.analyzeUpdate m with historical_daily_stats := h } := rfl

theorem analyzeFlags_hist (d : AnomalyDetector) (h : List DailyStats)
    (m : MeasurementWithTime) :
    ({ d with historical_daily_stats := h } : AnomalyDetector).analyzeFlags m =
      d.analyzeFlags m := rfl

theorem analyze_hist (d : AnomalyDetector) (h : List DailyStats)
    (m : MeasurementWithTime) (dbg : Bool) :
    ({ d with historical_daily_stats := h } : AnomalyDetector).analyze m dbg =
      ({ (d.analyze m dbg).1 with historical_daily_stats := h }, (d.analyze m dbg).2) := rfl

theorem runFlags_hist (ms : List MeasurementWithTime) : ∀ (d : AnomalyDetector)
    (h : List DailyStats),
    runFlags { d with historical_daily_stats := h } ms = runFlags d ms := by
  induction ms with
  | nil => intro d h; rfl
  | cons m ms ih =>
    intro d h
    show (({ d with historical_daily_stats := h } : AnomalyDetector).analyze m false).2 ::
        runFlags (({ d with historical_daily_stats := h } : AnomalyDetector).analyze m false).1 ms =
      ((d.analyze m false).2 :: runFlags (d.analyze m false).1 ms)
    rw [analyze_hist]
    exact congrArg _ (ih _ h)

theorem analyzeHistoricalGo_hist (ms : List MeasurementWithTime) :
    ∀ (d : AnomalyDetector) (res : BatchAnalysisResult) (h : List DailyStats),
    analyzeHistoricalGo { d with historical_daily_stats := h } res ms =
      analyzeHistoricalGo d res ms := by
  induction ms with
  | nil => intro d res h; rfl
  | cons m ms ih =>
    intro d res h
    simp only [analyzeHistoricalGo, analyze_hist]
    rcases (d.analyze m false).2 with e | flags
    · rfl
    · exact ih _ _ h

/-- C1: the batch driver `analyze_historical_data` first calls
`build_profile` over the whole sequence and then replays it; the
per-measurement flag stream it feeds through `analyze` is bit-identical to
the stream obtained from a fresh `AnomalyDetector` with the same config and
no `build_profile` call, for every measurement sequence (in particular every
time-sorted one), and the accumulated batch result itself is likewise
unchanged by the `build_profile` step. -/
theorem batch_stream_flags_agree (cfg : AnomalyConfig) (ms : List MeasurementWithTime) :
    runFlags ((AnomalyDetector.with_config cfg).build_profile ms) ms =
        runFlags (AnomalyDetector.with_config cfg) ms ∧
      analyze_historical_data ms (some cfg) =
        analyzeHistoricalGo (AnomalyDetector.with_config cfg)
          { total_measurements := ms.length
            anomalies_detected := 0
            sunlight_events := 0
            anomaly_timestamps := [] } ms := by
  constructor
  · exact runFlags_hist ms _ _
  · exact analyzeHistoricalGo_hist ms _ _ _

theorem stageDefiniteHumidity_legacy (d : AnomalyDetector) (m : MeasurementWithTime)
    (b : Bool) (f : AnomalyFlags) (hf : legacyFieldsFalse f) :
    legacyFieldsFalse (stageDefiniteHumidity d m b f) := by
  unfold stageDefiniteHumidity
  split_ifs <;> exact hf

theorem stageSuspiciousSome_legacy (d : AnomalyDetector) (m : MeasurementWithTime)
    (b : Bool) (q : ℚ) (f : AnomalyFlags) (hf : legacyFieldsFalse f) :
    legacyFieldsFalse (stageSuspiciousSome d m b q f) := by
  simp only [stageSuspiciousSome]
  split_ifs <;> exact hf

theorem stageSuspiciousNone_legacy (d : AnomalyDetector) (m : MeasurementWithTime)
    (b : Bool) (f : AnomalyFlags) (hf : legacyFieldsFalse f) :
    legacyFieldsFalse (stageSuspiciousNone d m b f) := by
  unfold stageSuspiciousNone
  split <;> [skip; exact hf]
  split <;> exact hf

theorem stageTempSpikeSome_legacy (d : AnomalyDetector) (m : MeasurementWithTime)
    (b : Bool) (q : ℚ) (f : AnomalyFlags) (hf : legacyFieldsFalse f) :
    legacyFieldsFalse (stageTempSpikeSome d m b q f) := by
  simp only [stageTempSpikeSome]
  split_ifs <;> exact hf

theorem stageCO2_legacy (d : AnomalyDetector) (m : MeasurementWithTime)
    (f : AnomalyFlags) (hf : legacyFieldsFalse f) :
    legacyFieldsFalse (stageCO2 d m f) := by
  unfold stageCO2
  split <;> exact hf

theorem stageSunlight_legacy (b : Bool) (f : AnomalyFlags) (hf : legacyFieldsFalse f) :
    legacyFieldsFalse (stageSunlight b f) := by
  unfold stageSunlight
  split <;> exact hf

theorem flagsPure_legacy (d : AnomalyDetector) (m : MeasurementWithTime)
    (bt : Option ℚ) : legacyFieldsFalse (flagsPure d m bt) := by
  have h0 : legacyFieldsFalse AnomalyFlags.default := ⟨rfl, rfl, rfl⟩
  have h1 := stageDefiniteHumidity_legacy d m
    (isDaylightHours d.config (hourOf m.time)) AnomalyFlags.default h0
  rcases bt with _ | q <;>
    simp only [flagsPure] <;>
    split_ifs <;>
    apply stageSunlight_legacy <;>
    apply stageCO2_legacy <;>
    first
      | exact h1
      | exact stageSuspiciousNone_legacy _ _ _ _ h1
      | exact stageSuspiciousSome_legacy _ _ _ _ _ h1
      | exact stageTempSpikeSome_legacy _ _ _ _ _ h1
      | exact stageTempSpikeSome_legacy _ _ _ _ _ (stageSuspiciousNone_legacy _ _ _ _ h1)
      | exact stageTempSpikeSome_legacy _ _ _ _ _ (stageSuspiciousSome_legacy _ _ _ _ _ h1)

theorem analyze_ok_legacy (d : AnomalyDetector) (m : MeasurementWithTime) (dbg : Bool)
    (flags : AnomalyFlags) (h : (d.analyze m dbg).2 = .ok flags) :
    legacyFieldsFalse flags := by
  have he := analyzeFlags_eq (d.analyzeUpdate m) m
  have h2 : (d.analyzeUpdate m).analyzeFlags m = .ok flags := h
  rw [he] at h2
  rcases hb : (d.analyzeUpdate m).get_pre_sunlight_baseline m.time with e | bt
  · rw [hb] at h2; exact absurd h2 (by simp)
  · rw [hb] at h2
    simp only [Except.ok.injEq] at h2
    rw [← h2]
    exact flagsPure_legacy _ _ _

theorem analyzeHistoricalGo_legacy (ms : List MeasurementWithTime) :
    ∀ (d : AnomalyDetector) (res : BatchAnalysisResult)
    (hres : ∀ p ∈ res.anomaly_timestamps, legacyFieldsFalse p.2.1)
    (out : BatchAnalysisResult) (hout : analyzeHistoricalGo d res ms = .ok out),
    ∀ p ∈ out.anomaly_timestamps, legacyFieldsFalse p.2.1 := by
  induction ms with
  | nil =>
    intro d res hres out hout
    injection hout with h
    rw [← h]; exact hres
  | cons m ms ih =>
    intro d res hres out hout
    simp only [analyzeHistoricalGo] at hout
    rcases hf : (d.analyze m false).2 with e | flags
    · rw [hf] at hout; exact absurd hout (by simp)
    · rw [hf] at hout
      refine ih _ _ ?_ _ hout
      have hleg := analyze_ok_legacy d m false flags hf
      split
      · intro p hp
        simp only [List.mem_append, List.mem_singleton] at hp
        rcases hp with hp | hp
        · exact hres p hp
        · rw [hp]; exact hleg
      · exact hres

theorem stageDefiniteHumidity_hum (d : AnomalyDetector) (m : MeasurementWithTime)
    (b : Bool) (f : AnomalyFlags)
    (hh : fle m.humidity d.config.humidity_definite_anomaly = true) :
    (stageDefiniteHumidity d m b f).humidity_spike = true := by
  simp only [stageDefiniteHumidity, hh, if_true]

theorem stageDefiniteHumidity_ts (d : AnomalyDetector) (m : MeasurementWithTime)
    (b : Bool) (f : AnomalyFlags) :
    (stageDefiniteHumidity d m b f).temperature_spike = f.temperature_spike := by
  simp only [stageDefiniteHumidity]; split_ifs <;> rfl

theorem stageDefiniteHumidity_ps_true (d : AnomalyDetector) (m : MeasurementWithTime)
    (f : AnomalyFlags)
    (hh : fle m.humidity d.config.humidity_definite_anomaly = true) :
    (stageDefiniteHumidity d m true f).possible_sunlight = true := by
  simp only [stageDefiniteHumidity, hh, if_true]

theorem stageDefiniteHumidity_ps_nodl (d : AnomalyDetector) (m : MeasurementWithTime)
    (f : AnomalyFlags) :
    (stageDefiniteHumidity d m false f).possible_sunlight = f.possible_sunlight := by
  simp only [stageDefiniteHumidity]; split_ifs <;> simp_all

theorem stageSuspiciousSome_ps_nodl (d : AnomalyDetector) (m : MeasurementWithTime)
    (q : ℚ) (f : AnomalyFlags) :
    (stageSuspiciousSome d m false q f).possible_sunlight = f.possible_sunlight := by
  simp only [stageSuspiciousSome]; split_ifs <;> simp_all

theorem stageSuspiciousNone_ps (d : AnomalyDetector) (m : MeasurementWithTime)
    (b : Bool) (f : AnomalyFlags) :
    (stageSuspiciousNone d m b f).possible_sunlight = f.possible_sunlight := by
  simp only [stageSuspiciousNone]; split_ifs <;> rfl

theorem stageSuspiciousNone_ts (d : AnomalyDetector) (m : MeasurementWithTime)
    (b : Bool) (f : AnomalyFlags) :
    (stageSuspiciousNone d m b f).temperature_spike = f.temperature_spike := by
  simp only [stageSuspiciousNone]; split_ifs <;> rfl

theorem stageTempSpikeSome_hum (d : AnomalyDetector) (m : MeasurementWithTime)
    (b : Bool) (q : ℚ) (f : AnomalyFlags) :
    (stageTempSpikeSome d m b q f).humidity_spike = f.humidity_spike := by
  simp only [stageTempSpikeSome]; split_ifs <;> rfl

theorem stageTempSpikeSome_ps (d : AnomalyDetector) (m : MeasurementWithTime)
    (b : Bool) (q : ℚ) (f : AnomalyFlags) :
    (stageTempSpikeSome d m b q f).possible_sunlight = f.possible_sunlight := by
  simp only [stageTempSpikeSome]; split_ifs <;> rfl

theorem stageCO2_hum (d : AnomalyDetector) (m : MeasurementWithTime) (f : AnomalyFlags) :
    (stageCO2 d m f).humidity_spike = f.humidity_spike := by
  simp only [stageCO2]; split_ifs <;> rfl

theorem stageCO2_ps (d : AnomalyDetector) (m : MeasurementWithTime) (f : AnomalyFlags) :
    (stageCO2 d m f).possible_sunlight = f.possible_sunlight := by
  simp only [stageCO2]; split_ifs <;> rfl

theorem stageCO2_ts (d : AnomalyDetector) (m : MeasurementWithTime) (f : AnomalyFlags) :
    (stageCO2 d m f).temperature_spike = f.temperature_spike := by
  simp only [stageCO2]; split_ifs <;> rfl

theorem stageCO2_set (d : AnomalyDetector) (m : MeasurementWithTime) (f : AnomalyFlags)
    (hc : fge (some (m.co2 : ℚ)) d.config.co2_spike_threshold = true) :
    (stageCO2 d m f).co2_spike = true := by
  simp only [stageCO2, hc, if_true]

theorem stageSunlight_hum (b : Bool) (f : AnomalyFlags) :
    (stageSunlight b f).humidity_spike = f.humidity_spike := by
  simp only [stageSunlight]; split_ifs <;> rfl

theorem stageSunlight_co2 (b : Bool) (f : AnomalyFlags) :
    (stageSunlight b f).co2_spike = f.co2_spike := by
  simp only [stageSunlight]; split_ifs <;> rfl

theorem stageSunlight_ps_mono (b : Bool) (f : AnomalyFlags)
    (h : f.possible_sunlight = true) : (stageSunlight b f).possible_sunlight = true := by
  simp only [stageSunlight]; split_ifs <;> simp [h]

theorem stageSunlight_ps_nodl (f : AnomalyFlags) :
    (stageSunlight false f).possible_sunlight = f.possible_sunlight := by
  simp only [stageSunlight]; split_ifs <;> simp_all

theorem flagsPure_definite (d : AnomalyDetector) (m : MeasurementWithTime) (bt : Option ℚ)
    (hh : fle m.humidity d.config.humidity_definite_anomaly = true) :
    (flagsPure d m bt).humidity_spike = true ∧
      (isDaylightHours d.config (hourOf m.time) = true →
        (flagsPure d m bt).possible_sunlight = true) := by
  rcases bt with _ | q
  · simp only [flagsPure]
    set b := isDaylightHours d.config (hourOf m.time) with hbdef
    set f1 := stageDefiniteHumidity d m b AnomalyFlags.default with hf1def
    have hf1h : f1.humidity_spike = true := stageDefiniteHumidity_hum d m b _ hh
    have hf1ts : f1.temperature_spike = false := stageDefiniteHumidity_ts d m b _
    simp only [hf1h, hf1ts, Bool.not_true, Bool.not_false, Bool.and_false,
      Bool.false_eq_true, if_false, if_true]
    refine ⟨by rw [stageSunlight_hum, stageCO2_hum, hf1h], fun hdl => ?_⟩
    apply stageSunlight_ps_mono
    rw [stageCO2_ps, hf1def, hdl]
    exact stageDefiniteHumidity_ps_true d m _ hh
  · simp only [flagsPure]
    set b := isDaylightHours d.config (hourOf m.time) with hbdef
    set f1 := stageDefiniteHumidity d m b AnomalyFlags.default with hf1def
    have hf1h : f1.humidity_spike = true := stageDefiniteHumidity_hum d m b _ hh
    have hf1ts : f1.temperature_spike = false := stageDefiniteHumidity_ts d m b _
    simp only [hf1h, hf1ts, Bool.not_true, Bool.not_false, Bool.and_false,
      Bool.false_eq_true, if_false, if_true]
    refine ⟨by rw [stageSunlight_hum, stageCO2_hum, stageTempSpikeSome_hum, hf1h],
      fun hdl => ?_⟩
    apply stageSunlight_ps_mono
    rw [stageCO2_ps, stageTempSpikeSome_ps, hf1def, hdl]
    exact stageDefiniteHumidity_ps_true d m _ hh

theorem flagsPure_no_daylight (d : AnomalyDetector) (m : MeasurementWithTime) (bt : Option ℚ)
    (hdl : isDaylightHours d.config (hourOf m.time) = false) :
    (flagsPure d m bt).possible_sunlight = false := by
  have h1 : (stageDefiniteHumidity d m false AnomalyFlags.default).possible_sunlight
      = false := by
    rw [stageDefiniteHumidity_ps_nodl]; rfl
  rcases bt with _ | q <;>
    simp only [flagsPure, hdl] <;>
    rw [stageSunlight_ps_nodl, stageCO2_ps] <;>
    split <;> split <;>
    first
      | exact h1
      | rw [stageSuspiciousNone_ps, h1]
      | rw [stageSuspiciousSome_ps_nodl, h1]
      | rw [stageTempSpikeSome_ps, h1]
      | rw [stageTempSpikeSome_ps, stageSuspiciousNone_ps, h1]
      | rw [stageTempSpikeSome_ps, stageSuspiciousSome_ps_nodl, h1]

theorem flagsPure_co2 (d : AnomalyDetector) (m : MeasurementWithTime) (bt : Option ℚ)
    (hc : fge (some (m.co2 : ℚ)) d.config.co2_spike_threshold = true) :
    (flagsPure d m bt).co2_spike = true := by
  simp only [flagsPure]
  rw [stageSunlight_co2]
  exact stageCO2_set d m _ hc

theorem analyzeUpdate_config (d : AnomalyDetector) (m : MeasurementWithTime) :
    (d.analyzeUpdate m).config = d.config := rfl

theorem analyze_ok_iff (d : AnomalyDetector) (m : MeasurementWithTime) (dbg : Bool)
    (flags : AnomalyFlags) (h : (d.analyze m dbg).2 = .ok flags) :
    ∃ bt, (d.analyzeUpdate m).get_pre_sunlight_baseline m.time = .ok bt ∧
      flags = flagsPure (d.analyzeUpdate m) m bt := by
  have h2 : (d.analyzeUpdate m).analyzeFlags m = .ok flags := h
  rw [analyzeFlags_eq] at h2
  rcases hb : (d.analyzeUpdate m).get_pre_sunlight_baseline m.time with e | bt
  · rw [hb] at h2; exact absurd h2 (by simp)
  · rw [hb] at h2
    simp only [Except.ok.injEq] at h2
    exact ⟨bt, rfl, h2.symm⟩

theorem isDaylightHours_iff (cfg : AnomalyConfig) (h : Nat) :
    isDaylightHours cfg h = true ↔
      cfg.daylight_start_hour ≤ h ∧ h ≤ cfg.daylight_end_hour := by
  simp [isDaylightHours]

/-- C5: if `humidity_pct ≤ humidity_definite_anomaly` (inclusive), any flag
record returned by `analyze` has `humidity_spike = true`, and additionally
`possible_sunlight = true` when the measurement hour lies within the
inclusive daylight range — for every prior detector state, temperature and
CO₂ value; outside daylight hours `possible_sunlight` stays false. -/
theorem definite_humidity_flags (d : AnomalyDetector) (m : MeasurementWithTime)
    (dbg : Bool) (flags : AnomalyFlags)
    (h : (d.analyze m dbg).2 = .ok flags)
    (hh : fle m.humidity d.config.humidity_definite_anomaly = true) :
    flags.humidity_spike = true ∧
      (d.config.daylight_start_hour ≤ hourOf m.time ∧
          hourOf m.time ≤ d.config.daylight_end_hour →
        flags.possible_sunlight = true) ∧
      (¬(d.config.daylight_start_hour ≤ hourOf m.time ∧
          hourOf m.time ≤ d.config.daylight_end_hour) →
        flags.possible_sunlight = false) := by
  obtain ⟨bt, hb, hf⟩ := analyze_ok_iff d m dbg flags h
  have hd := flagsPure_definite (d.analyzeUpdate m) m bt hh
  refine ⟨hf ▸ hd.1, fun hdl => ?_, fun hdl => ?_⟩
  · exact hf ▸ hd.2 ((isDaylightHours_iff d.config (hourOf m.time)).mpr hdl)
  · have hb0 : isDaylightHours (d.analyzeUpdate m).config (hourOf m.time) = false := by
      rw [analyzeUpdate_config]
      exact (Bool.not_eq_true _).mp
        (fun hc => hdl ((isDaylightHours_iff d.config (hourOf m.time)).mp hc))
    exact hf ▸ flagsPure_no_daylight (d.analyzeUpdate m) m bt hb0

/-- C6: `possible_sunlight` is never set outside the inclusive daylight
range `[daylight_start_hour, daylight_end_hour]`: whenever the measurement
hour falls outside it, every flag record returned by `analyze` has
`possible_sunlight = false`, whatever the other flags are. -/
theorem sunlight_only_in_daylight (d : AnomalyDetector) (m : MeasurementWithTime)
    (dbg : Bool) (flags : AnomalyFlags)
    (h : (d.analyze m dbg).2 = .ok flags)
    (hout : ¬(d.config.daylight_start_hour ≤ hourOf m.time ∧
        hourOf m.time ≤ d.config.daylight_end_hour)) :
    flags.possible_sunlight = false := by
  obtain ⟨bt, hb, hf⟩ := analyze_ok_iff d m dbg flags h
  have hb0 : isDaylightHours (d.analyzeUpdate m).config (hourOf m.time) = false := by
    rw [analyzeUpdate_config]
    exact (Bool.not_eq_true _).mp
      (fun hc => hout ((isDaylightHours_iff d.config (hourOf m.time)).mp hc))
  exact hf ▸ flagsPure_no_daylight (d.analyzeUpdate m) m bt hb0

/-- C9: `co2_ppm ≥ co2_spike_threshold` (the `u16` value cast to float)
forces `co2_spike = true` in every flag record `analyze` returns — for
every prior detector state, hour of day and baseline situation. -/
theorem co2_spike_unconditional (d : AnomalyDetector) (m : MeasurementWithTime)
    (dbg : Bool) (flags : AnomalyFlags)
    (h : (d.analyze m dbg).2 = .ok flags)
    (hc : fge (some (m.co2 : ℚ)) d.config.co2_spike_threshold = true) :
    flags.co2_spike = true := by
  obtain ⟨bt, hb, hf⟩ := analyze_ok_iff d m dbg flags h
  exact hf ▸ flagsPure_co2 (d.analyzeUpdate m) m bt hc

/-- C10: the three legacy `physical_constraint_*` fields are never set by
any code path of `analyze`; they are false in every returned flag record
and in every record accumulated into a batch result by
`analyze_historical_data`. -/
theorem legacy_fields_always_false :
    (∀ (d : AnomalyDetector) (m : MeasurementWithTime) (dbg : Bool)
        (flags : AnomalyFlags), (d.analyze m dbg).2 = .ok flags →
      flags.physical_constraint_temp_violation = false ∧
        flags.physical_constraint_humidity_violation = false ∧
        flags.physical_constraint_co2_violation = false) ∧
      ∀ (ms : List MeasurementWithTime) (cfg : Option AnomalyConfig)
        (res : BatchAnalysisResult), analyze_historical_data ms cfg = .ok res →
        ∀ p ∈ res.anomaly_timestamps,
          p.2.1.physical_constraint_temp_violation = false ∧
            p.2.1.physical_constraint_humidity_violation = false ∧
            p.2.1.physical_constraint_co2_violation = false := by
  constructor
  · exact fun d m dbg flags h => analyze_ok_legacy d m dbg flags h
  · intro ms cfg res hres
    exact analyzeHistoricalGo_legacy ms _ _ (by simp) res hres

/-- C3 (counterexample): the baseline's early-morning filter does not use
the configured daylight start hour.  With `daylight_start_hour = 0` and
three same-day entries at hours 1–3, the source still takes their median
(its cutoff is the constant 7), while the spec's filter (hour below the
configured start) selects nothing and yields no early-morning baseline. -/
theorem baseline_cutoff_counterexample :
    c3Detector.get_pre_sunlight_baseline 36000 ≠
        get_pre_sunlight_baseline_speced c3Detector 36000 ∧
      c3Detector.get_pre_sunlight_baseline 36000 = .ok (some 11) ∧
      get_pre_sunlight_baseline_speced c3Detector 36000 = .ok none := by
  refine ⟨?_, ?_, ?_⟩ <;> decide

/-- C3 (amended): every threshold comparison of the classifier reads the
`AnomalyConfig` record, but the baseline's early-morning cutoff is the
hard-coded constant hour 7, not the configured daylight start hour: the
baseline equals `baselineWithCutoff` at cutoff 7 and is invariant under
arbitrary replacement of the configuration. -/
theorem baseline_cutoff_fixed_seven (d : AnomalyDetector) (c : AnomalyConfig)
    (t : UtcTime) :
    d.get_pre_sunlight_baseline t = baselineWithCutoff d.recent_measurements 7 t ∧
      ({ d with config := c } : AnomalyDetector).get_pre_sunlight_baseline t =
        d.get_pre_sunlight_baseline t :=
  ⟨rfl, rfl⟩

/-- C4 (code bug): `analyze` panics on NaN.  A NaN temperature stored in
the recent window reaches the `partial_cmp(..).unwrap()` inside the
baseline's sort as soon as three same-day early-morning entries exist:
after two benign measurements, analysing a third with NaN temperature
aborts instead of returning flags. -/
theorem analyze_nan_panics :
    runFlags AnomalyDetector.new
        [{ co2 := 400, temperature := some 10, humidity := some 90, time := 0,
           device := "esp32" },
         { co2 := 400, temperature := some 11, humidity := some 90, time := 3600,
           device := "esp32" },
         { co2 := 400, temperature := none, humidity := some 90, time := 7200,
           device := "esp32" }] =
      [.ok AnomalyFlags.default, .ok AnomalyFlags.default, .error ()] := by
  rfl

theorem stageSunlight_ts (b : Bool) (f : AnomalyFlags) :
    (stageSunlight b f).temperature_spike = f.temperature_spike := by
  simp only [stageSunlight]; split_ifs <;> rfl

theorem flagsPure_none_ts (d : AnomalyDetector) (m : MeasurementWithTime) :
    (flagsPure d m none).temperature_spike = false := by
  have h1 : (stageDefiniteHumidity d m (isDaylightHours d.config (hourOf m.time))
      AnomalyFlags.default).temperature_spike = false := by
    rw [stageDefiniteHumidity_ts]; rfl
  simp only [flagsPure]
  rw [stageSunlight_ts, stageCO2_ts]
  split <;> split <;>
    first
      | exact h1
      | rw [stageSuspiciousNone_ts, h1]

/-- C7: the baseline estimate is a two-tier fallback.  With at least 3
stored entries of the current day with hour below the early-morning cutoff
(and, non-NaN temperatures, cf. C4), it returns the median of their
temperatures — the middle element of a sorted permutation; otherwise with
at least 10 entries in the window it returns the minimum temperature over
the whole window; otherwise it returns no baseline, and a measurement
analysed with no baseline available never gets `temperature_spike`. -/
theorem baseline_two_tier (d : AnomalyDetector) (t : UtcTime) :
    (((d.recent_measurements.filter fun m =>
          decide (dayKey m.time = dayKey t) && decide (hourOf m.time < 7)).length < 3 →
        d.recent_measurements.length < 10 →
        d.get_pre_sunlight_baseline t = .ok none)) ∧
      (3 ≤ (d.recent_measurements.filter fun m =>
          decide (dayKey m.time = dayKey t) && decide (hourOf m.time < 7)).length →
        (∀ m ∈ (d.recent_measurements.filter fun m =>
          decide (dayKey m.time = dayKey t) && decide (hourOf m.time < 7)),
          m.temperature ≠ none) →
        ∃ l : List ℚ,
          l.Perm (((d.recent_measurements.filter fun m =>
            decide (dayKey m.time = dayKey t) && decide (hourOf m.time < 7)).map
              (·.temperature)).filterMap id) ∧
            l.Sorted (· ≤ ·) ∧
            d.get_pre_sunlight_baseline t = .ok (some (l.getD (l.length / 2) 0))) ∧
      ((d.recent_measurements.filter fun m =>
          decide (dayKey m.time = dayKey t) && decide (hourOf m.time < 7)).length < 3 →
        10 ≤ d.recent_measurements.length →
        (∀ m ∈ d.recent_measurements, m.temperature ≠ none) →
        ∃ q : ℚ, d.get_pre_sunlight_baseline t = .ok (some q) ∧
          some q ∈ d.recent_measurements.map (·.temperature) ∧
          ∀ m ∈ d.recent_measurements, fge m.temperature (some q) = true) ∧
      ∀ (m : MeasurementWithTime) (dbg : Bool) (flags : AnomalyFlags),
        (d.analyze m dbg).2 = .ok flags →
        (d.analyzeUpdate m).get_pre_sunlight_baseline m.time = .ok none →
        flags.temperature_spike = false := by
  refine ⟨fun h3 h10 => ?_, fun h3 hnn => ?_, fun h3 h10 hnn => ?_, fun m dbg flags h hbn => ?_⟩
  · have e1 : ¬ 3 ≤ ((d.recent_measurements.filter fun m =>
        decide (dayKey m.time = dayKey t) && decide (hourOf m.time < 7)).map
          (·.temperature)).length := by
      rw [List.length_map]; omega
    have e2 : ¬ 10 ≤ d.recent_measurements.length := by omega
    simp only [AnomalyDetector.get_pre_sunlight_baseline]
    rw [if_neg e1, if_neg e2]
  · have hlen : 3 ≤ ((d.recent_measurements.filter fun m =>
        decide (dayKey m.time = dayKey t) && decide (hourOf m.time < 7)).map
          (·.temperature)).length := by
      rw [List.length_map]; exact h3
    have hany : ((d.recent_measurements.filter fun m =>
        decide (dayKey m.time = dayKey t) && decide (hourOf m.time < 7)).map
          (·.temperature)).any (·.isNone) = false := by
      rw [List.any_eq_false]
      intro x hx
      rw [List.mem_map] at hx
      obtain ⟨mm, hmm, rfl⟩ := hx
      simp only [Option.isNone_iff_eq_none]
      exact hnn mm hmm
    simp only [AnomalyDetector.get_pre_sunlight_baseline]
    rw [if_pos hlen, if_neg (by rw [hany]; exact Bool.false_ne_true)]
    exact ⟨_, List.perm_insertionSort _ _, List.sorted_insertionSort _ _, rfl⟩
  · have e1 : ¬ 3 ≤ ((d.recent_measurements.filter fun m =>
        decide (dayKey m.time = dayKey t) && decide (hourOf m.time < 7)).map
          (·.temperature)).length := by
      rw [List.length_map]; omega
    have hany : (d.recent_measurements.map (·.temperature)).any (·.isNone) = false := by
      rw [List.any_eq_false]
      intro x hx
      rw [List.mem_map] at hx
      obtain ⟨mm, hmm, rfl⟩ := hx
      simp only [Option.isNone_iff_eq_none]
      exact hnn mm hmm
    have hne : d.recent_measurements.filterMap (·.temperature) ≠ [] := by
      intro h0
      have hl : (d.recent_measurements.filterMap (·.temperature)).length =
          d.recent_measurements.length := by
        apply List.filterMap_length_eq_length.mpr
        intro mm hmm
        rcases htemp : mm.temperature with _ | x
        · exact absurd htemp (hnn mm hmm)
        · simp
      rw [h0] at hl
      simp only [List.length_nil] at hl
      omega
    obtain ⟨q, hq⟩ : ∃ q, (d.recent_measurements.filterMap (·.temperature)).min? = some q := by
      rcases hl : d.recent_measurements.filterMap (·.temperature) with _ | ⟨a, tl⟩
      · exact absurd hl hne
      · rw [hl]; exact ⟨_, List.min?_cons⟩
    haveI : Std.Antisymm (fun x1 x2 : ℚ => x1 ≤ x2) := ⟨@le_antisymm ℚ _⟩
    obtain ⟨hqmem, hqle⟩ :=
      (@List.min?_eq_some_iff ℚ q _ _ _ le_refl (fun a b => min_choice a b)
        (fun a b c => le_min_iff) _).mp hq
    refine ⟨q, ?_, ?_, ?_⟩
    · simp only [AnomalyDetector.get_pre_sunlight_baseline]
      rw [if_neg e1, if_pos h10, if_neg (by rw [hany]; exact Bool.false_ne_true), hq]
    · rw [List.mem_filterMap] at hqmem
      obtain ⟨mm, hmm, htemp⟩ := hqmem
      exact List.mem_map.mpr ⟨mm, hmm, htemp⟩
    · intro mm hmm
      rcases htemp : mm.temperature with _ | x
      · exact absurd htemp (hnn mm hmm)
      · have hx : x ∈ d.recent_measurements.filterMap (·.temperature) :=
          List.mem_filterMap.mpr ⟨mm, hmm, htemp⟩
        simpa [fge] using hqle x hx
  · obtain ⟨bt, hb, hf⟩ := analyze_ok_iff d m dbg flags h
    rw [hbn] at hb
    injection hb with hb2
    rw [hf, ← hb2]
    exact flagsPure_none_ts _ _

theorem analyzeUpdate_recent (d : AnomalyDetector) (m : MeasurementWithTime) :
    (d.analyzeUpdate m).recent_measurements =
      (d.recent_measurements ++ [m]).filter fun x =>
        decide (m.time - 3 * 3600 < x.time) := rfl

theorem analyzeUpdate_recent_inv (d : AnomalyDetector) (m : MeasurementWithTime) (c : Int)
    (hs : List.Sorted (fun a b : MeasurementWithTime => a.time ≤ b.time)
      d.recent_measurements)
    (hbound : ∀ x ∈ d.recent_measurements, x.time ≤ c) (hcm : c ≤ m.time) :
    List.Sorted (fun a b : MeasurementWithTime => a.time ≤ b.time)
        (d.analyzeUpdate m).recent_measurements ∧
      ∀ x ∈ (d.analyzeUpdate m).recent_measurements,
        x.time ≤ m.time ∧ m.time - 3 * 3600 < x.time := by
  rw [analyzeUpdate_recent]
  constructor
  · apply List.Sorted.filter
    rw [List.Sorted, List.pairwise_append]
    refine ⟨hs, List.pairwise_singleton _ _, ?_⟩
    intro a ha b hb
    rw [List.mem_singleton] at hb
    subst hb
    exact le_trans (hbound a ha) hcm
  · intro x hx
    rw [List.mem_filter] at hx
    obtain ⟨hmem, hcut⟩ := hx
    rw [List.mem_append, List.mem_singleton] at hmem
    refine ⟨?_, by simpa using hcut⟩
    rcases hmem with hmem | rfl
    · exact le_trans (hbound x hmem) hcm
    · exact le_refl _

theorem runState_recent_inv :
    ∀ (ms : List MeasurementWithTime) (m : MeasurementWithTime) (d : AnomalyDetector),
    List.Sorted (fun a b : MeasurementWithTime => a.time ≤ b.time) (ms ++ [m]) →
    List.Sorted (fun a b : MeasurementWithTime => a.time ≤ b.time) d.recent_measurements →
    (∀ x ∈ d.recent_measurements, ∀ y ∈ ms ++ [m], x.time ≤ y.time) →
    List.Sorted (fun a b : MeasurementWithTime => a.time ≤ b.time)
        (runState d (ms ++ [m])).recent_measurements ∧
      ∀ x ∈ (runState d (ms ++ [m])).recent_measurements,
        x.time ≤ m.time ∧ m.time - 3 * 3600 < x.time := by
  intro ms
  induction ms with
  | nil =>
    intro m d hsor hrec hbound
    have h := analyzeUpdate_recent_inv d m m.time hrec
      (fun x hx => hbound x hx m (List.mem_singleton_self m)) (le_refl _)
    exact h
  | cons a ms ih =>
    intro m d hsor hrec hbound
    have hsor2 : List.Sorted (fun a b : MeasurementWithTime => a.time ≤ b.time)
        (ms ++ [m]) := (List.sorted_cons.mp hsor).2
    have hstep := analyzeUpdate_recent_inv d a a.time hrec
      (fun x hx => hbound x hx a (List.mem_cons_self a _)) (le_refl _)
    refine ih m ((d.analyze a false).1) hsor2 hstep.1 ?_
    intro x hx y hy
    have hx2 : x ∈ (d.analyzeUpdate a).recent_measurements := hx
    rw [analyzeUpdate_recent] at hx2
    rw [List.mem_filter, List.mem_append, List.mem_singleton] at hx2
    rcases hx2 with ⟨hmem | rfl, _⟩
    · exact hbound x hmem y (List.mem_cons_of_mem a hy)
    · exact (List.sorted_cons.mp hsor).1 y hy

/-- C8: replaying any sequence with non-decreasing timestamps through
`analyze` from a fresh detector keeps the recent-window store sorted by
time, with every stored entry no older than the 3-hour horizon relative to
the most recently inserted measurement (and not newer than it). -/
theorem recent_window_invariant (cfg : AnomalyConfig) (ms : List MeasurementWithTime)
    (m : MeasurementWithTime)
    (hsor : List.Sorted (fun a b : MeasurementWithTime => a.time ≤ b.time) (ms ++ [m])) :
    List.Sorted (fun a b : MeasurementWithTime => a.time ≤ b.time)
        (runState (AnomalyDetector.with_config cfg) (ms ++ [m])).recent_measurements ∧
      ∀ x ∈ (runState (AnomalyDetector.with_config cfg) (ms ++ [m])).recent_measurements,
        m.time - 3 * 3600 < x.time ∧ x.time ≤ m.time := by
  have h := runState_recent_inv ms m (AnomalyDetector.with_config cfg) hsor
    (List.sorted_nil) (by intro x hx; exact absurd hx (List.not_mem_nil x))
  exact ⟨h.1, fun x hx => ⟨(h.2 x hx).2, (h.2 x hx).1⟩⟩

/-- C2: (spec-modelled) the Rolling Statistical Detector's `check` never
errors: with fewer than 5 available window samples (after capping at
`rolling_window_size` most-recent entries) it returns the explicit
no-verdict outcome for every input, and with 5 or more it declares an
anomaly iff both `|current_value − mean| > min_abs_delta[channel]` and
`|current_value − mean| > std_dev · z_score_threshold[channel]`, where
`mean` is the population mean and `std_dev` the population standard
deviation (any `s ≥ 0` with `s² = variance`) over the capped window. -/
theorem rolling_detector_check (cv : ℚ) (ch : Channel) (ws : List ℚ)
    (cfg : RollingConfig) :
    ((ws.take cfg.rolling_window_size).length < 5 →
      rollingCheck cv ch ws cfg = .noVerdict) ∧
      (5 ≤ (ws.take cfg.rolling_window_size).length →
        ∀ s : ℚ, 0 ≤ s →
        s ^ 2 = ((ws.take cfg.rolling_window_size).map fun x =>
            (x - (ws.take cfg.rolling_window_size).sum /
              ((ws.take cfg.rolling_window_size).length : ℚ)) ^ 2).sum /
            ((ws.take cfg.rolling_window_size).length : ℚ) →
        0 ≤ cfg.z_score_threshold ch →
        (rollingCheck cv ch ws cfg = .anomalous ↔
          |cv - (ws.take cfg.rolling_window_size).sum /
              ((ws.take cfg.rolling_window_size).length : ℚ)| > cfg.min_abs_delta ch ∧
            |cv - (ws.take cfg.rolling_window_size).sum /
              ((ws.take cfg.rolling_window_size).length : ℚ)| >
              s * cfg.z_score_threshold ch)) := by
  constructor
  · intro h5
    simp only [rollingCheck]
    rw [if_pos h5]
  · intro h5 s hs hsvar hz
    have key : ∀ a b : ℚ, 0 ≤ a → 0 ≤ b → (b < a ↔ b ^ 2 < a ^ 2) := by
      intro a b ha hb
      constructor
      · intro h
        exact pow_lt_pow_left₀ h hb (by norm_num)
      · intro h
        by_contra hc
        push_neg at hc
        exact absurd (pow_le_pow_left₀ ha hc 2) (not_le.mpr h)
    simp only [rollingCheck]
    rw [if_neg (by omega)]
    have hcond :
        (|cv - (ws.take cfg.rolling_window_size).sum /
            ((ws.take cfg.rolling_window_size).length : ℚ)| > cfg.min_abs_delta ch ∧
          (cv - (ws.take cfg.rolling_window_size).sum /
            ((ws.take cfg.rolling_window_size).length : ℚ)) ^ 2 >
            ((ws.take cfg.rolling_window_size).map fun x =>
              (x - (ws.take cfg.rolling_window_size).sum /
                ((ws.take cfg.rolling_window_size).length : ℚ)) ^ 2).sum /
              ((ws.take cfg.rolling_window_size).length : ℚ) *
              cfg.z_score_threshold ch ^ 2) ↔
        (|cv - (ws.take cfg.rolling_window_size).sum /
            ((ws.take cfg.rolling_window_size).length : ℚ)| > cfg.min_abs_delta ch ∧
          |cv - (ws.take cfg.rolling_window_size).sum /
            ((ws.take cfg.rolling_window_size).length : ℚ)| >
            s * cfg.z_score_threshold ch) := by
      refine and_congr_right fun _ => ?_
      rw [← hsvar, ← mul_pow, ← sq_abs
        (cv - (ws.take cfg.rolling_window_size).sum /
          ((ws.take cfg.rolling_window_size).length : ℚ))]
      exact (key _ _ (abs_nonneg _) (mul_nonneg hs hz)).symm
    split_ifs with hc
    · exact ⟨fun _ => hcond.mp hc, fun _ => rfl⟩
    · exact ⟨fun hbad => absurd hbad (by simp), fun hrhs => absurd (hcond.mpr hrhs) hc⟩

theorem definite_humidity_flags_witness :
    (AnomalyDetector.new.analyze
        { co2 := 420, temperature := some 20, humidity := some 50, time := 36000,
          device := "esp32" } false).2 =
      .ok { temperature_spike := false, humidity_spike := true, co2_spike := false,
            possible_sunlight := true, physical_constraint_temp_violation := false,
            physical_constraint_humidity_violation := false,
            physical_constraint_co2_violation := false } ∧
      fle (some 50) AnomalyDetector.new.config.humidity_definite_anomaly = true ∧
      ((AnomalyFlags.mk false true false true false false false).humidity_spike = true ∧
        (AnomalyDetector.new.config.daylight_start_hour ≤ hourOf 36000 ∧
            hourOf 36000 ≤ AnomalyDetector.new.config.daylight_end_hour →
          (AnomalyFlags.mk false true false true false false false).possible_sunlight = true) ∧
        (¬(AnomalyDetector.new.config.daylight_start_hour ≤ hourOf 36000 ∧
            hourOf 36000 ≤ AnomalyDetector.new.config.daylight_end_hour) →
          (AnomalyFlags.mk false true false true false false false).possible_sunlight
            = false)) :=
  ⟨by decide, by decide,
    definite_humidity_flags AnomalyDetector.new
      { co2 := 420, temperature := some 20, humidity := some 50, time := 36000,
        device := "esp32" } false
      (AnomalyFlags.mk false true false true false false false) (by decide) (by decide)⟩

theorem sunlight_only_in_daylight_witness :
    (AnomalyDetector.new.analyze
        { co2 := 420, temperature := some 20, humidity := some 50, time := 72000,
          device := "esp32" } false).2 =
      .ok (AnomalyFlags.mk false true false false false false false) ∧
      ¬(AnomalyDetector.new.config.daylight_start_hour ≤ hourOf 72000 ∧
          hourOf 72000 ≤ AnomalyDetector.new.config.daylight_end_hour) ∧
      (AnomalyFlags.mk false true false false false false false).possible_sunlight = false :=
  ⟨by decide, by decide,
    sunlight_only_in_daylight AnomalyDetector.new
      { co2 := 420, temperature := some 20, humidity := some 50, time := 72000,
        device := "esp32" } false
      (AnomalyFlags.mk false true false false false false false) (by decide) (by decide)⟩

theorem co2_spike_unconditional_witness :
    (AnomalyDetector.new.analyze
        { co2 := 800, temperature := some 10, humidity := some 90, time := 0,
          device := "esp32" } false).2 =
      .ok (AnomalyFlags.mk false false true false false false false) ∧
      fge (some ((800 : Nat) : ℚ)) AnomalyDetector.new.config.co2_spike_threshold = true ∧
      (AnomalyFlags.mk false false true false false false false).co2_spike = true :=
  ⟨by decide, by decide,
    co2_spike_unconditional AnomalyDetector.new
      { co2 := 800, temperature := some 10, humidity := some 90, time := 0,
        device := "esp32" } false
      (AnomalyFlags.mk false false true false false false false) (by decide) (by decide)⟩

theorem legacy_fields_always_false_witness :
    (AnomalyDetector.new.analyze
        { co2 := 400, temperature := some 10, humidity := some 90, time := 0,
          device := "esp32" } false).2 =
      .ok (AnomalyFlags.mk false false false false false false false) ∧
      ((AnomalyFlags.mk false false false false false false
          false).physical_constraint_temp_violation = false ∧
        (AnomalyFlags.mk false false false false false false
          false).physical_constraint_humidity_violation = false ∧
        (AnomalyFlags.mk false false false false false false
          false).physical_constraint_co2_violation = false) :=
  ⟨by decide,
    legacy_fields_always_false.1 AnomalyDetector.new
      { co2 := 400, temperature := some 10, humidity := some 90, time := 0,
        device := "esp32" } false
      (AnomalyFlags.mk false false false false false false false) (by decide)⟩

theorem baseline_two_tier_witness :
    (AnomalyDetector.new.recent_measurements.filter fun m =>
        decide (dayKey m.time = dayKey 0) && decide (hourOf m.time < 7)).length < 3 ∧
      AnomalyDetector.new.recent_measurements.length < 10 ∧
      AnomalyDetector.new.get_pre_sunlight_baseline 0 = .ok none :=
  ⟨by decide, by decide,
    (baseline_two_tier AnomalyDetector.new 0).1 (by decide) (by decide)⟩

theorem recent_window_invariant_witness :
    List.Sorted (fun a b : MeasurementWithTime => a.time ≤ b.time)
        ([] ++ [MeasurementWithTime.mk 400 (some 10) (some 90) 0 "esp32"]) ∧
      (List.Sorted (fun a b : MeasurementWithTime => a.time ≤ b.time)
          (runState (AnomalyDetector.with_config AnomalyConfig.default)
            ([] ++ [MeasurementWithTime.mk 400 (some 10) (some 90) 0
              "esp32"])).recent_measurements ∧
        ∀ x ∈ (runState (AnomalyDetector.with_config AnomalyConfig.default)
            ([] ++ [MeasurementWithTime.mk 400 (some 10) (some 90) 0
              "esp32"])).recent_measurements,
          (0 : Int) - 3 * 3600 < x.time ∧ x.time ≤ (0 : Int)) :=
  ⟨by decide,
    recent_window_invariant AnomalyConfig.default []
      (MeasurementWithTime.mk 400 (some 10) (some 90) 0 "esp32") (by decide)⟩

theorem rolling_detector_check_witness :
    5 ≤ (List.take 30 [(10 : ℚ), 10, 10, 10, 10]).length ∧
      (0 : ℚ) ≤ 0 ∧
      (0 : ℚ) ^ 2 = ((List.take 30 [(10 : ℚ), 10, 10, 10, 10]).map fun x =>
          (x - (List.take 30 [(10 : ℚ), 10, 10, 10, 10]).sum /
            ((List.take 30 [(10 : ℚ), 10, 10, 10, 10]).length : ℚ)) ^ 2).sum /
          ((List.take 30 [(10 : ℚ), 10, 10, 10, 10]).length : ℚ) ∧
      (rollingCheck 20 Channel.temperature [10, 10, 10, 10, 10]
          { z_score_threshold := fun _ => 3, min_abs_delta := fun _ => 5,
            rolling_window_size := 30 } = .anomalous ↔
        |20 - (List.take 30 [(10 : ℚ), 10, 10, 10, 10]).sum /
            ((List.take 30 [(10 : ℚ), 10, 10, 10, 10]).length : ℚ)| > 5 ∧
          |20 - (List.take 30 [(10 : ℚ), 10, 10, 10, 10]).sum /
            ((List.take 30 [(10 : ℚ), 10, 10, 10, 10]).length : ℚ)| > 0 * 3) :=
  ⟨by decide, le_refl 0, by norm_num [List.take],
    (rolling_detector_check 20 Channel.temperature [10, 10, 10, 10, 10]
        { z_score_threshold := fun _ => 3, min_abs_delta := fun _ => 5,
          rolling_window_size := 30 }).2 (by decide) 0 (le_refl 0)
      (by norm_num [List.take]) (by norm_num)⟩

end AirQuality
